import Mathlib

/-!
Shallow embedding of the FMP MCP server's response-curation logic
(file `src/unnamed/part_000` of the repository).  Each tool handler is
modelled as a pure Lean function from the already-fetched upstream data
(the value of `response.data`, after the transport and HTTP layers, which
are out of scope) to the tool's result.  JavaScript numbers are modelled
as rationals (`ℚ`), absent/null values as `Option`, and a thrown upstream
error as the `Except.error` case of the handler's input.
-/

/-- One item of a tool result's `content` array (`{type: "text", text: ...}`). -/
structure ContentItem where
  ctype : String
  text : String
deriving Repr, DecidableEq

/-- An MCP tool result: `{content: [...]}`. -/
structure ToolResult where
  content : List ContentItem
deriving Repr, DecidableEq

/-- Builds the only result shape the code produces: a single text content item. -/
def textResult (s : String) : ToolResult :=
  ⟨[⟨"text", s⟩]⟩

/-- Holds iff the result carries exactly one content item and it is of text kind. -/
def isSingleText (r : ToolResult) : Bool :=
  match r.content with
  | [c] => c.ctype == "text"
  | _ => false

/-- JS truthiness of an optional number: `null`/`undefined` and `0` are falsy. -/
def ratTruthy : Option ℚ → Bool
  | none => false
  | some q => !(q == 0)

/-- JS `a || b` on optional numbers: the first operand if truthy, else the
second operand verbatim (even when the second is falsy). -/
def jsOrNum (a b : Option ℚ) : Option ℚ :=
  if ratTruthy a then a else b

/-- JS `a || b` on strings: `""` is falsy. -/
def jsOrStr (a : Option String) (b : String) : String :=
  match a with
  | some s => if s = "" then b else s
  | none => b

/-- Substring test on character lists (used to examine message texts). -/
def containsSub (hay needle : List Char) : Bool :=
  match hay with
  | [] => needle.isEmpty
  | _ :: t => needle.isPrefixOf hay || containsSub t needle

/-- Substring test on strings. -/
def strContains (hay needle : String) : Bool :=
  containsSub hay.data needle.data

/-- JS `text.substring(0, n)`. -/
def jsSubstring (s : String) (n : Nat) : String :=
  String.mk (s.data.take n)

/-- JS `Number.prototype.toFixed(2)` as an integer count of hundredths:
round half-up of `q * 100`, computed on the exact rational. -/
def toFixed2Int (q : ℚ) : ℤ :=
  (q.num * 200 + q.den).fdiv (2 * q.den)

/-- JS `parseFloat(q.toFixed(2))`: the numeric value of `q` rounded to 2 decimals. -/
def round2 (q : ℚ) : ℚ :=
  (toFixed2Int q : ℚ) / 100

/-- The decimal string produced by `q.toFixed(2)`. -/
def fixed2 (q : ℚ) : String :=
  let n := toFixed2Int q
  let sgn := if n < 0 then "-" else ""
  let a := n.natAbs
  sgn ++ toString (a / 100) ++ "." ++ (if a % 100 < 10 then "0" else "") ++ toString (a % 100)

/-! ### historical_stock_data (part_000 lines 234–459) -/

/-- One raw historical price point as delivered by the provider.  `date` is the
timestamp the JS `new Date(p.date)` comparison key denotes; `close` is optional
because the summary digest tests its truthiness; `adjClose` stands for the
extra upstream fields that the OHLCV projection drops. -/
structure PricePoint where
  date : ℤ
  openPrice : ℚ
  high : ℚ
  low : ℚ
  close : Option ℚ
  volume : ℚ
  adjClose : Option ℚ := none
deriving Repr, DecidableEq, Inhabited

/-- The OHLCV projection `{date, open, high, low, close, volume}` of a point. -/
structure OHLCV where
  date : ℤ
  openPrice : ℚ
  high : ℚ
  low : ℚ
  close : Option ℚ
  volume : ℚ
deriving Repr, DecidableEq

def projOHLCV (p : PricePoint) : OHLCV :=
  ⟨p.date, p.openPrice, p.high, p.low, p.close, p.volume⟩

/-- Comparator of `.sort((a, b) => new Date(b.date) - new Date(a.date))`:
descending by date. -/
def descByDate (a b : PricePoint) : Prop := b.date ≤ a.date

instance : DecidableRel descByDate := fun _ _ => Int.decLe _ _

instance : IsTotal PricePoint descByDate := ⟨fun a b => le_total b.date a.date⟩

instance : IsTrans PricePoint descByDate := ⟨fun _ _ _ h1 h2 => le_trans h2 h1⟩

/-- Comparator of `.sort((a, b) => new Date(a.date) - new Date(b.date))`:
ascending by date. -/
def ascByDate (a b : PricePoint) : Prop := a.date ≤ b.date

instance : DecidableRel ascByDate := fun _ _ => Int.decLe _ _

instance : IsTotal PricePoint ascByDate := ⟨fun a b => le_total a.date b.date⟩

instance : IsTrans PricePoint ascByDate := ⟨fun _ _ _ h1 h2 => le_trans h1 h2⟩

def sortDesc (ps : List PricePoint) : List PricePoint :=
  List.insertionSort descByDate ps

def sortAsc (ps : List PricePoint) : List PricePoint :=
  List.insertionSort ascByDate ps

/-- The value of `response.data.historical || response.data` after JSON
parsing: either an array of points or an object whose values are arrays of
points keyed by sub-group (multi-group intraday shape). -/
inductive HistShape where
  | arr (ps : List PricePoint)
  | grouped (groups : List (String × List PricePoint))
deriving Repr, DecidableEq

/-- The emptiness test
`(Array.isArray(history) && history.length === 0) || (typeof history === "object" && !Object.keys(history).length)`. -/
def histEmpty : HistShape → Bool
  | .arr ps => ps.isEmpty
  | .grouped gs => gs.isEmpty

/-- JS `Array.isArray(history) ? history : Object.values(history).flat()`. -/
def histFlatten : HistShape → List PricePoint
  | .arr ps => ps
  | .grouped gs => (gs.map Prod.snd).flatten

def POINTS_THRESHOLD_FOR_SUMMARY : Nat := 60
def RECENT_POINTS_TO_SHOW_WITH_SUMMARY : Nat := 5
def MAX_POINTS_FOR_FULL_DETAIL : Nat := 150

inductive Detail where
  | summary
  | full
deriving Repr, DecidableEq

/-- The summary-digest object built when the point count exceeds the
threshold. -/
structure HistDigest where
  message : String
  periodStartDate : ℤ
  periodEndDate : ℤ
  startPrice : Option ℚ
  endPrice : Option ℚ
  periodHigh : ℚ
  periodLow : ℚ
  priceChangePercent : Option ℚ
  recentData : List OHLCV
deriving Repr, DecidableEq

/-- The JSON payload serialized by `historical_stock_data`: either a
`{message, data}` envelope or the statistical digest object. -/
inductive HistPayload where
  | dataEnvelope (message : String) (data : List OHLCV)
  | digest (d : HistDigest)
deriving Repr, DecidableEq

def dataLenOf : HistPayload → Option Nat
  | .dataEnvelope _ data => some data.length
  | .digest _ => none

def digestOf : HistPayload → Option HistDigest
  | .dataEnvelope _ _ => none
  | .digest d => some d

/-- JS `Math.max(...)` over a list (the call sites guarantee nonemptiness, where
the JS result would otherwise be `-Infinity`). -/
def listMax : List ℚ → ℚ
  | [] => 0
  | x :: xs => xs.foldl max x

/-- JS `Math.min(...)` over a list. -/
def listMin : List ℚ → ℚ
  | [] => 0
  | x :: xs => xs.foldl min x

/-- The summary-branch message (it does not depend on the close values). -/
def histSummaryMsg (n : Nat) (firstDate lastDate : ℤ) : String :=
  "Summarized " ++ toString n ++ " data points from " ++ toString firstDate ++
  " to " ++ toString lastDate ++ ". Showing " ++
  toString RECENT_POINTS_TO_SHOW_WITH_SUMMARY ++
  " most recent points. Request 'full' detail for more data points (up to " ++
  toString MAX_POINTS_FOR_FULL_DETAIL ++ ")."

/-- Curation of the (already descending-sorted) data points, part_000 lines
345–442. -/
def historicalCurate (dataPoints : List PricePoint) (detail : Detail) : HistPayload :=
  if detail = Detail.full then
    let limited := (dataPoints.take MAX_POINTS_FOR_FULL_DETAIL).map projOHLCV
    .dataEnvelope
      ("Showing " ++ toString limited.length ++ " of " ++ toString dataPoints.length ++
       " fetched data points (full detail requested, capped at " ++
       toString MAX_POINTS_FOR_FULL_DETAIL ++ ").")
      limited
  else if dataPoints.length > POINTS_THRESHOLD_FOR_SUMMARY then
    let chron := sortAsc dataPoints
    match chron with
    | [] => .dataEnvelope "" []  -- unreachable: chron has the same length as dataPoints, which is > 60
    | cFirst :: rest =>
      let cLast := (cFirst :: rest).getLast (List.cons_ne_nil cFirst rest)
      let highs := (cFirst :: rest).map (·.high)
      let lows := (cFirst :: rest).map (·.low)
      .digest
        { message := histSummaryMsg dataPoints.length cFirst.date cLast.date
          periodStartDate := cFirst.date
          periodEndDate := cLast.date
          startPrice := cFirst.close
          endPrice := cLast.close
          periodHigh := listMax highs
          periodLow := listMin lows
          priceChangePercent :=
            if ratTruthy cLast.close && ratTruthy cFirst.close then
              some ((cLast.close.getD 0 - cFirst.close.getD 0) / cFirst.close.getD 0 * 100)
            else none
          recentData := (dataPoints.take RECENT_POINTS_TO_SHOW_WITH_SUMMARY).map projOHLCV }
  else
    .dataEnvelope
      ("Showing all " ++ toString dataPoints.length ++
       " fetched data points (below summary threshold).")
      (dataPoints.map projOHLCV)

/-- Serialization of the payload to the single text block (stand-in for
`JSON.stringify(..., null, 2)`; the envelope message and data survive in it). -/
def renderOHLCV (p : OHLCV) : String :=
  "\x7b date: " ++ toString p.date ++ ", open: " ++ toString p.openPrice ++
  ", high: " ++ toString p.high ++ ", low: " ++ toString p.low ++
  ", close: " ++ (match p.close with | none => "null" | some c => toString c) ++
  ", volume: " ++ toString p.volume ++ " \x7d"

def renderHistPayload : HistPayload → String
  | .dataEnvelope m data =>
      "\x7b message: " ++ m ++ ", data: [" ++
      String.intercalate ", " (data.map renderOHLCV) ++ "] \x7d"
  | .digest d =>
      "\x7b message: " ++ d.message ++
      ", periodStartDate: " ++ toString d.periodStartDate ++
      ", periodEndDate: " ++ toString d.periodEndDate ++
      ", startPrice: " ++ (match d.startPrice with | none => "null" | some c => toString c) ++
      ", endPrice: " ++ (match d.endPrice with | none => "null" | some c => toString c) ++
      ", periodHigh: " ++ toString d.periodHigh ++
      ", periodLow: " ++ toString d.periodLow ++
      ", priceChangePercent: " ++
      (match d.priceChangePercent with | none => "null" | some c => toString c) ++
      ", recentData: [" ++ String.intercalate ", " (d.recentData.map renderOHLCV) ++ "] \x7d"

/-- The full `historical_stock_data` handler: `fetched` is the outcome of the
axios call (`Except.error` = thrown error caught by the catch block; `none` =
missing `history` value). -/
def historical_stock_data (fetched : Except String (Option HistShape))
    (detail : Detail) : ToolResult :=
  match fetched with
  | .error e => textResult ("Error fetching historical_stock_data: " ++ e)
  | .ok none => textResult "No historical data found for the given parameters."
  | .ok (some h) =>
    if histEmpty h then
      textResult "No historical data found for the given parameters."
    else
      let dataPoints := sortDesc (histFlatten h)
      if dataPoints.length = 0 then
        textResult "No historical data points found after processing."
      else
        textResult (renderHistPayload (historicalCurate dataPoints detail))

/-! ### technical_indicator (part_000 lines 461–551) -/

/-- One raw indicator point: the four field aliases the projection's
`||`-chain probes (`val[type.toLowerCase()] || val[type.toUpperCase()] ||
val.indicatorValue || val.value`). -/
structure IndPoint where
  date : ℤ
  byLowerName : Option ℚ
  byUpperName : Option ℚ
  indicatorValue : Option ℚ
  value : Option ℚ
deriving Repr, DecidableEq

/-- A projected indicator value `{date, [type.toLowerCase()]: ...}`. -/
structure IndOut where
  date : ℤ
  key : String
  value : Option ℚ
deriving Repr, DecidableEq

def RECENT_VALUES_COUNT : Nat := 3

def projInd (indicatorType : String) (v : IndPoint) : IndOut :=
  ⟨v.date, indicatorType.toLower,
    jsOrNum v.byLowerName (jsOrNum v.byUpperName (jsOrNum v.indicatorValue v.value))⟩

/-- Shape of `response.data` for the indicator endpoint: an array, or a single
non-array object passed through untouched. -/
inductive IndData where
  | arr (vals : List IndPoint)
  | single (v : IndPoint)
deriving Repr, DecidableEq

/-- The payload shapes `technical_indicator` serializes. -/
inductive IndPayload where
  | envelope (message : String) (indicator : String) (values : List IndOut)
  | bare (values : List IndOut)
  | passthrough (v : IndPoint)
deriving Repr, DecidableEq

def indEnvelopeOf : IndPayload → Option (String × String × List IndOut)
  | .envelope m i vs => some (m, i, vs)
  | _ => none

def indBareOf : IndPayload → Option (List IndOut)
  | .bare vs => some vs
  | _ => none

/-- Dates of the values the payload surfaces. -/
def indShownDates : IndPayload → List ℤ
  | .envelope _ _ vs => vs.map (·.date)
  | .bare vs => vs.map (·.date)
  | .passthrough v => [v.date]

/-- Curation of a fetched indicator array (part_000 lines 510–533): slice the
first `RECENT_VALUES_COUNT` entries, project, and wrap in an envelope unless
the whole array fit. -/
def technicalCurate (indicatorData : List IndPoint) (indicatorType : String) : IndPayload :=
  let recentValues := (indicatorData.take RECENT_VALUES_COUNT).map (projInd indicatorType)
  if indicatorData.length ≤ RECENT_VALUES_COUNT then
    .bare recentValues
  else
    .envelope
      ("Showing " ++ toString recentValues.length ++ " most recent " ++ indicatorType ++
       " values of " ++ toString indicatorData.length ++ " fetched. Full series available via API.")
      indicatorType recentValues

def renderIndOut (v : IndOut) : String :=
  "\x7b date: " ++ toString v.date ++ ", " ++ v.key ++ ": " ++
  (match v.value with | none => "null" | some q => toString q) ++ " \x7d"

def renderIndPayload : IndPayload → String
  | .envelope m i vs =>
      "\x7b message: " ++ m ++ ", indicator: " ++ i ++ ", values: [" ++
      String.intercalate ", " (vs.map renderIndOut) ++ "] \x7d"
  | .bare vs => "[" ++ String.intercalate ", " (vs.map renderIndOut) ++ "]"
  | .passthrough v =>
      "\x7b date: " ++ toString v.date ++ " \x7d"

/-- The full `technical_indicator` handler. -/
def technical_indicator (fetched : Except String (Option IndData))
    (symbol interval indicatorType : String) (period : Nat) : ToolResult :=
  match fetched with
  | .error e => textResult ("Error in technical_indicator: " ++ e)
  | .ok none =>
    textResult ("No " ++ indicatorType ++ " data found for " ++ symbol ++ " with period " ++
      toString period ++ " on " ++ interval ++ " interval.")
  | .ok (some (.arr vals)) =>
    if vals.isEmpty then
      textResult ("No " ++ indicatorType ++ " data found for " ++ symbol ++ " with period " ++
        toString period ++ " on " ++ interval ++ " interval.")
    else
      textResult (renderIndPayload (technicalCurate vals indicatorType))
  | .ok (some (.single v)) => textResult (renderIndPayload (.passthrough v))

/-! ### stock_news (part_000 lines 643–742) -/

/-- One raw news article (`publishedDate` as comparable timestamp; `text` is
optional because the snippet truncation tests its truthiness). -/
structure Article where
  publishedDate : ℤ
  title : String
  site : String
  url : String
  text : Option String
deriving Repr, DecidableEq

/-- A projected article `{title, publishedDate, site, url, snippet}`. -/
structure ArticleOut where
  title : String
  publishedDate : ℤ
  site : String
  url : String
  snippet : Option String
deriving Repr, DecidableEq

def ARTICLES_FOR_SUMMARY : Nat := 3
def ARTICLES_FOR_FULL_DETAIL : Nat := 10

/-- JS `article.text && article.text.length > 200 ? article.text.substring(0, 200) + "..." : article.text`. -/
def truncSnippet (t : Option String) : Option String :=
  match t with
  | none => none
  | some s => if s.length > 200 then some (jsSubstring s 200 ++ "...") else some s

def projArticle (a : Article) : ArticleOut :=
  ⟨a.title, a.publishedDate, a.site, a.url, truncSnippet a.text⟩

inductive NewsPayload where
  | envelope (message : String) (articles : List ArticleOut)
  | bare (articles : List ArticleOut)
deriving Repr, DecidableEq

def newsShown : NewsPayload → List ArticleOut
  | .envelope _ arts => arts
  | .bare arts => arts

def newsMessageOf : NewsPayload → Option String
  | .envelope m _ => some m
  | .bare _ => none

/-- The `articlesToShowCount` value: `Math.min(articles.length, detail == "full" ? 10 : 3)`. -/
def newsShowCount (articles : List Article) (detail : Detail) : Nat :=
  if detail = Detail.full then min articles.length ARTICLES_FOR_FULL_DETAIL
  else min articles.length ARTICLES_FOR_SUMMARY

/-- Curation of fetched articles (part_000 lines 684–731): slice from the
array start (no re-sort), project, and attach the message envelope per the
original condition. -/
def newsCurate (articles : List Article) (detail : Detail) : NewsPayload :=
  let articlesToShowCount := newsShowCount articles detail
  let summarizedArticles := (articles.take articlesToShowCount).map projArticle
  let msgPrefix :=
    if detail = Detail.full then
      "Displaying " ++ toString summarizedArticles.length ++ " of " ++
      toString articles.length ++ " fetched articles (full detail requested, capped at " ++
      toString ARTICLES_FOR_FULL_DETAIL ++ "):"
    else
      "Displaying summaries for the " ++ toString summarizedArticles.length ++
      " most recent of " ++ toString articles.length ++
      " articles fetched. Request 'full' detail for more."
  if articles.length > summarizedArticles.length ∨
     (detail = Detail.full ∧ articles.length ≥ articlesToShowCount) then
    .envelope msgPrefix summarizedArticles
  else
    .bare summarizedArticles

def renderArticleOut (a : ArticleOut) : String :=
  "\x7b title: " ++ a.title ++ ", publishedDate: " ++ toString a.publishedDate ++
  ", site: " ++ a.site ++ ", url: " ++ a.url ++ ", snippet: " ++
  (match a.snippet with | none => "null" | some s => s) ++ " \x7d"

def renderNewsPayload : NewsPayload → String
  | .envelope m arts =>
      "\x7b message: " ++ m ++ ", articles: [" ++
      String.intercalate ", " (arts.map renderArticleOut) ++ "] \x7d"
  | .bare arts => "[" ++ String.intercalate ", " (arts.map renderArticleOut) ++ "]"

/-- The full `stock_news` handler. -/
def stock_news (fetched : Except String (List Article)) (detail : Detail) : ToolResult :=
  match fetched with
  | .error e => textResult ("Error fetching stock_news: " ++ e)
  | .ok articles =>
    if articles.isEmpty then
      textResult "No news found for the given symbol(s)."
    else
      textResult (renderNewsPayload (newsCurate articles detail))

/-! ### earnings_calendar (part_000 lines 744–851) -/

/-- One raw earnings-calendar record. -/
structure EarnRec where
  date : String
  symbol : String
  eps : Option ℚ
  epsEstimated : Option ℚ
  revenue : Option ℚ
  revenueEstimated : Option ℚ
  time : String
  fiscalDateEnding : String
deriving Repr, DecidableEq

/-- Projection used in the no-symbol summary branch: `{date, symbol, epsEstimated, time}`. -/
structure EarnSummaryOut where
  date : String
  symbol : String
  epsEstimated : Option ℚ
  time : String
deriving Repr, DecidableEq

/-- Projection used in the other branch. -/
structure EarnFullOut where
  date : String
  symbol : String
  eps : Option ℚ
  epsEstimated : Option ℚ
  revenue : Option ℚ
  revenueEstimated : Option ℚ
  time : String
  fiscalDateEnding : String
deriving Repr, DecidableEq

def projEarnSummary (e : EarnRec) : EarnSummaryOut :=
  ⟨e.date, e.symbol, e.epsEstimated, e.time⟩

def projEarnFull (e : EarnRec) : EarnFullOut :=
  ⟨e.date, e.symbol, e.eps, e.epsEstimated, e.revenue, e.revenueEstimated, e.time,
    e.fiscalDateEnding⟩

def MAX_RESULTS_TO_LLM_EARNINGS : Nat := 10

inductive EarnPayload where
  | envelope (message : String) (earningsEvents : List EarnSummaryOut)
  | bare (records : List EarnFullOut)
deriving Repr, DecidableEq

def earnMessageOf : EarnPayload → Option String
  | .envelope m _ => some m
  | .bare _ => none

def earnShownCount : EarnPayload → Nat
  | .envelope _ evs => evs.length
  | .bare recs => recs.length

/-- Curation of fetched earnings data (part_000 lines 795–839).  `hasSymbol`
records whether the `symbol` argument was supplied. -/
def earningsCurate (hasSymbol : Bool) (earningsData : List EarnRec) : EarnPayload :=
  if ¬hasSymbol ∧ earningsData.length > MAX_RESULTS_TO_LLM_EARNINGS then
    .envelope
      ("Displaying first " ++ toString MAX_RESULTS_TO_LLM_EARNINGS ++ " of " ++
       toString earningsData.length ++
       " earnings events. Specify a symbol or a tighter date range for more targeted results.")
      ((earningsData.take MAX_RESULTS_TO_LLM_EARNINGS).map projEarnSummary)
  else
    .bare ((earningsData.take MAX_RESULTS_TO_LLM_EARNINGS).map projEarnFull)

def renderEarnSummaryOut (e : EarnSummaryOut) : String :=
  "\x7b date: " ++ e.date ++ ", symbol: " ++ e.symbol ++ ", epsEstimated: " ++
  (match e.epsEstimated with | none => "null" | some q => toString q) ++
  ", time: " ++ e.time ++ " \x7d"

def renderEarnFullOut (e : EarnFullOut) : String :=
  "\x7b date: " ++ e.date ++ ", symbol: " ++ e.symbol ++ ", eps: " ++
  (match e.eps with | none => "null" | some q => toString q) ++ ", epsEstimated: " ++
  (match e.epsEstimated with | none => "null" | some q => toString q) ++ ", revenue: " ++
  (match e.revenue with | none => "null" | some q => toString q) ++ ", revenueEstimated: " ++
  (match e.revenueEstimated with | none => "null" | some q => toString q) ++
  ", time: " ++ e.time ++ ", fiscalDateEnding: " ++ e.fiscalDateEnding ++ " \x7d"

def renderEarnPayload : EarnPayload → String
  | .envelope m evs =>
      "\x7b message: " ++ m ++ ", earningsEvents: [" ++
      String.intercalate ", " (evs.map renderEarnSummaryOut) ++ "] \x7d"
  | .bare recs => "[" ++ String.intercalate ", " (recs.map renderEarnFullOut) ++ "]"

/-- The full `earnings_calendar` handler. -/
def earnings_calendar (fetched : Except String (List EarnRec)) (hasSymbol : Bool) : ToolResult :=
  match fetched with
  | .error e => textResult ("Error in earnings_calendar: " ++ e)
  | .ok earningsData =>
    if earningsData.isEmpty then
      textResult "No earnings calendar data found for the given parameters."
    else
      textResult (renderEarnPayload (earningsCurate hasSymbol earningsData))

/-! ### dividend_calendar (part_000 lines 1123–1222) -/

/-- One raw dividend record (`date` as comparable timestamp for the re-sort;
the remaining fields are copied verbatim by the projection). -/
structure DividendRec where
  date : ℤ
  label : String
  dividend : Option ℚ
  adjDividend : Option ℚ
  recordDate : String
  paymentDate : String
  declarationDate : String
deriving Repr, DecidableEq

structure DividendOut where
  date : ℤ
  label : String
  dividend : Option ℚ
  adjDividend : Option ℚ
  recordDate : String
  paymentDate : String
  declarationDate : String
deriving Repr, DecidableEq

def projDividend (d : DividendRec) : DividendOut :=
  ⟨d.date, d.label, d.dividend, d.adjDividend, d.recordDate, d.paymentDate, d.declarationDate⟩

/-- Comparator of `[...dividends].sort((a, b) => new Date(b.date) - new Date(a.date))`. -/
def divDescByDate (a b : DividendRec) : Prop := b.date ≤ a.date

instance : DecidableRel divDescByDate := fun _ _ => Int.decLe _ _

instance : IsTotal DividendRec divDescByDate := ⟨fun a b => le_total b.date a.date⟩

instance : IsTrans DividendRec divDescByDate := ⟨fun _ _ _ h1 h2 => le_trans h2 h1⟩

def sortDivDesc (ds : List DividendRec) : List DividendRec :=
  List.insertionSort divDescByDate ds

structure DividendPayload where
  message : String
  dividends : List DividendOut
deriving Repr, DecidableEq

/-- Curation of fetched dividends (part_000 lines 1159–1193): defensive
descending re-sort, then slice `limit`. -/
def dividendCurate (dividends : List DividendRec) (limit : Nat) (symbol : String) :
    DividendPayload :=
  let recentDividends := ((sortDivDesc dividends).take limit).map projDividend
  if dividends.length > recentDividends.length then
    { message := "Displaying " ++ toString recentDividends.length ++ " most recent of " ++
        toString dividends.length ++ " dividend records fetched for " ++ symbol ++ "."
      dividends := recentDividends }
  else
    { message := "Found " ++ toString dividends.length ++ " dividend records for " ++
        symbol ++ "."
      dividends := recentDividends }

def renderDividendOut (d : DividendOut) : String :=
  "\x7b date: " ++ toString d.date ++ ", label: " ++ d.label ++ ", dividend: " ++
  (match d.dividend with | none => "null" | some q => toString q) ++ ", adjDividend: " ++
  (match d.adjDividend with | none => "null" | some q => toString q) ++
  ", recordDate: " ++ d.recordDate ++ ", paymentDate: " ++ d.paymentDate ++
  ", declarationDate: " ++ d.declarationDate ++ " \x7d"

def renderDividendPayload (p : DividendPayload) : String :=
  "\x7b message: " ++ p.message ++ ", dividends: [" ++
  String.intercalate ", " (p.dividends.map renderDividendOut) ++ "] \x7d"

/-- The full `dividend_calendar` handler (`fetched` is `response.data.historical`). -/
def dividend_calendar (fetched : Except String (Option (List DividendRec)))
    (symbol : String) (limit : Nat) : ToolResult :=
  match fetched with
  | .error e => textResult ("Error fetching dividend data for " ++ symbol ++ ": " ++ e)
  | .ok none =>
    textResult ("No dividend data found for " ++ symbol ++
      ". The company may not pay dividends or data may be unavailable.")
  | .ok (some dividends) =>
    if dividends.isEmpty then
      textResult ("No dividend data found for " ++ symbol ++
        ". The company may not pay dividends or data may be unavailable.")
    else
      textResult (renderDividendPayload (dividendCurate dividends limit symbol))

/-! ### analyst_estimates (part_000 lines 553–641) -/

/-- One raw analyst-estimate record. -/
structure EstRec where
  date : String
  estimatedRevenueAvg : Option ℚ
  estimatedEpsAvg : Option ℚ
deriving Repr, DecidableEq

structure EstOut where
  date : String
  estimatedRevenueAvg : Option ℚ
  estimatedEpsAvg : Option ℚ
deriving Repr, DecidableEq

def projEst (e : EstRec) : EstOut :=
  ⟨e.date, e.estimatedRevenueAvg, e.estimatedEpsAvg⟩

/-- The price-target-summary record (post `Array.isArray ? [0] : data`
normalization; `none` at the call site = absent). -/
structure PTData where
  lastUpdated : Option String
  targetHigh : Option ℚ
  targetLow : Option ℚ
  targetConsensus : Option ℚ
  targetMedian : Option ℚ
  numberOfAnalysts : Option ℚ
deriving Repr, DecidableEq

structure PTOut where
  lastUpdated : Option String
  targetHigh : Option ℚ
  targetLow : Option ℚ
  targetConsensus : Option ℚ
  targetMedian : Option ℚ
  numberOfAnalysts : Option ℚ
deriving Repr, DecidableEq

def projPT (p : PTData) : PTOut :=
  ⟨p.lastUpdated, p.targetHigh, p.targetLow, p.targetConsensus, p.targetMedian,
    p.numberOfAnalysts⟩

/-- The composite summary payload: sub-sections are `none` when their
sub-source was absent. -/
structure AnalystSummary where
  symbol : String
  sourceMessage : String
  priceTargetSummary : Option PTOut
  recentEstimates : Option (List EstOut)
  recommendationInfo : Option String
deriving Repr, DecidableEq

/-- The three outcomes of `analyst_estimates` before serialization. -/
inductive AnalystResult where
  | errorResult (text : String)
  | noData
  | summary (s : AnalystSummary)
deriving Repr, DecidableEq

/-- The composite outcome (part_000 lines 565–629): the two fetches happen
inside one `try`, sequentially — a thrown error in either aborts to the catch
block; graceful degradation only applies to successfully fetched empty data. -/
def analystOutcome (estimatesFetch : Except String (List EstRec))
    (priceTargetFetch : Except String (Option PTData)) (symbol : String) : AnalystResult :=
  match estimatesFetch with
  | .error e => .errorResult ("Error in analyst_estimates: " ++ e)
  | .ok estimatesData =>
    match priceTargetFetch with
    | .error e => .errorResult ("Error in analyst_estimates: " ++ e)
    | .ok priceTargetData =>
      if estimatesData.isEmpty ∧ priceTargetData.isNone then
        .noData
      else
        .summary
          { symbol := symbol
            sourceMessage := "Summarized analyst estimates. More historical/detailed data might be available via direct API."
            priceTargetSummary := priceTargetData.map projPT
            recentEstimates :=
              if estimatesData.isEmpty then none
              else some ((estimatesData.take 2).map projEst)
            recommendationInfo :=
              if estimatesData.isEmpty then none
              else some "Detailed buy/hold/sell counts not directly available in this summary. FMP has separate recommendation endpoints." }

def renderEstOut (e : EstOut) : String :=
  "\x7b date: " ++ e.date ++ ", estimatedRevenueAvg: " ++
  (match e.estimatedRevenueAvg with | none => "null" | some q => toString q) ++
  ", estimatedEpsAvg: " ++
  (match e.estimatedEpsAvg with | none => "null" | some q => toString q) ++ " \x7d"

def renderPTOut (p : PTOut) : String :=
  "\x7b lastUpdated: " ++ (match p.lastUpdated with | none => "null" | some s => s) ++
  ", targetHigh: " ++ (match p.targetHigh with | none => "null" | some q => toString q) ++
  ", targetLow: " ++ (match p.targetLow with | none => "null" | some q => toString q) ++
  ", targetConsensus: " ++
  (match p.targetConsensus with | none => "null" | some q => toString q) ++
  ", targetMedian: " ++ (match p.targetMedian with | none => "null" | some q => toString q) ++
  ", numberOfAnalysts: " ++
  (match p.numberOfAnalysts with | none => "null" | some q => toString q) ++ " \x7d"

def renderAnalystSummary (s : AnalystSummary) : String :=
  "\x7b symbol: " ++ s.symbol ++ ", sourceMessage: " ++ s.sourceMessage ++
  (match s.priceTargetSummary with
   | none => ""
   | some p => ", priceTargetSummary: " ++ renderPTOut p) ++
  (match s.recentEstimates with
   | none => ""
   | some es => ", recentEstimates: [" ++ String.intercalate ", " (es.map renderEstOut) ++ "]") ++
  (match s.recommendationInfo with
   | none => ""
   | some r => ", recommendationInfo: " ++ r) ++ " \x7d"

/-- The full `analyst_estimates` handler. -/
def analyst_estimates (estimatesFetch : Except String (List EstRec))
    (priceTargetFetch : Except String (Option PTData)) (symbol : String) : ToolResult :=
  match analystOutcome estimatesFetch priceTargetFetch symbol with
  | .errorResult t => textResult t
  | .noData => textResult "No analyst estimates or price target data found for the symbol."
  | .summary s => textResult (renderAnalystSummary s)

/-! ### Generic raw records (dictionary-style endpoints) -/

/-- A JSON scalar field value.  `jnull` is a field present with value
`null`/`undefined`; an absent field is the `none` of the record lookup. -/
inductive JVal where
  | jnull
  | num (q : ℚ)
  | str (s : String)
  | jbool (b : Bool)
deriving Repr, DecidableEq

/-- JS truthiness of a field value. -/
def JVal.truthy : JVal → Bool
  | .jnull => false
  | .num q => !(q == 0)
  | .str s => !(s == "")
  | .jbool b => b

/-- A raw upstream record: ordered field list (first binding wins on lookup,
as in a JS object no key repeats; we keep lookup-first for definiteness). -/
def RawRecord := List (String × JVal)

/-- Lookup `record[key]`: `none` = absent (`undefined` off an object). -/
def getField (r : RawRecord) (k : String) : Option JVal :=
  match r.find? (fun p => p.fst == k) with
  | some p => some p.snd
  | none => none

/-- JS `record.hasOwnProperty(key) && record[key] !== null && record[key] !== undefined`. -/
def presentNonNull (r : RawRecord) (k : String) : Option JVal :=
  match getField r k with
  | some v => if v = JVal.jnull then none else some v
  | none => none

def renderJVal : JVal → String
  | .jnull => "null"
  | .num q => toString q
  | .str s => s
  | .jbool b => toString b

def renderFieldOpt (p : String × Option JVal) : String :=
  p.fst ++ ": " ++ (match p.snd with | none => "undefined" | some v => renderJVal v)

def renderField (p : String × JVal) : String :=
  p.fst ++ ": " ++ renderJVal p.snd

/-! ### financial_ratios_ttm (part_000 lines 853–939) -/

def keyRatioNames : List String :=
  ["peRatioTTM", "priceToSalesRatioTTM", "priceToBookRatioTTM",
   "priceEarningsToGrowthRatioTTM", "currentRatioTTM", "quickRatioTTM",
   "debtToEquityTTM", "debtToAssetsTTM", "returnOnEquityTTM", "returnOnAssetsTTM",
   "grossProfitMarginTTM", "operatingProfitMarginTTM", "netProfitMarginTTM",
   "dividendYieldTTM", "payoutRatioTTM", "assetTurnoverTTM", "inventoryTurnoverTTM"]

/-- The `ratios` sub-object: each curated key that is present with a non-null
value, in declaration order, plus the truthiness-gated `priceFairValueTTM`. -/
def ratiosProjection (allRatios : RawRecord) : List (String × JVal) :=
  (keyRatioNames.filterMap (fun k =>
    match presentNonNull allRatios k with
    | some v => some (k, v)
    | none => none)) ++
  (match getField allRatios "priceFairValueTTM" with
   | some v => if v.truthy then [("priceFairValueTTM", v)] else []
   | none => [])

structure RatiosPayload where
  symbol : JVal
  date : Option JVal
  sourceMessage : String
  ratios : List (String × JVal)
deriving Repr, DecidableEq

/-- The curated TTM-ratios payload (`symbol: allRatios.symbol || symbol`). -/
def ratiosCurate (allRatios : RawRecord) (symbolArg : String) : RatiosPayload :=
  { symbol :=
      match getField allRatios "symbol" with
      | some v => if v.truthy then v else JVal.str symbolArg
      | none => JVal.str symbolArg
    date := getField allRatios "date"
    sourceMessage := "Showing a curated list of TTM financial ratios. " ++
      toString allRatios.length ++ " total ratios fetched."
    ratios := ratiosProjection allRatios }

def renderRatiosPayload (p : RatiosPayload) : String :=
  "\x7b symbol: " ++ renderJVal p.symbol ++ ", date: " ++
  (match p.date with | none => "undefined" | some v => renderJVal v) ++
  ", sourceMessage: " ++ p.sourceMessage ++ ", ratios: \x7b " ++
  String.intercalate ", " (p.ratios.map renderField) ++ " \x7d \x7d"

/-- The full `financial_ratios_ttm` handler (`fetched` is the first element of
the response array, `none` when missing). -/
def financial_ratios_ttm (fetched : Except String (Option RawRecord))
    (symbol : String) : ToolResult :=
  match fetched with
  | .error e => textResult ("Error in financial_ratios_ttm: " ++ e)
  | .ok none => textResult "No TTM financial ratios found for the symbol."
  | .ok (some allRatios) =>
    if allRatios.isEmpty then
      textResult "No TTM financial ratios found for the symbol."
    else
      textResult (renderRatiosPayload (ratiosCurate allRatios symbol))

/-! ### key_metrics_ttm (part_000 lines 941–1030) -/

def keyMetricNames : List String :=
  ["revenuePerShareTTM", "netIncomePerShareTTM", "operatingCashFlowPerShareTTM",
   "freeCashFlowPerShareTTM", "marketCapTTM", "enterpriseValueTTM", "peRatioTTM",
   "priceToSalesRatioTTM", "pocfratioTTM", "pfcfRatioTTM", "pbRatioTTM", "ptbRatioTTM",
   "evToSalesTTM", "enterpriseValueOverEBITDATTM", "debtToEquityTTM", "debtToAssetsTTM",
   "netDebtToEBITDATTM", "currentRatioTTM", "dividendYieldTTM", "payoutRatioTTM",
   "roeTTM", "roicTTM"]

def metricsProjection (allMetrics : RawRecord) : List (String × JVal) :=
  (keyMetricNames.filterMap (fun k =>
    match presentNonNull allMetrics k with
    | some v => some (k, v)
    | none => none)) ++
  (match getField allMetrics "bookValuePerShareTTM" with
   | some v => if v.truthy then [("bookValuePerShareTTM", v)] else []
   | none => [])

structure MetricsPayload where
  symbol : JVal
  date : Option JVal
  sourceMessage : String
  metrics : List (String × JVal)
deriving Repr, DecidableEq

def metricsCurate (allMetrics : RawRecord) (symbolArg : String) : MetricsPayload :=
  { symbol :=
      match getField allMetrics "symbol" with
      | some v => if v.truthy then v else JVal.str symbolArg
      | none => JVal.str symbolArg
    date := getField allMetrics "date"
    sourceMessage := "Showing a curated list of TTM key metrics. " ++
      toString allMetrics.length ++ " total metrics fetched."
    metrics := metricsProjection allMetrics }

def renderMetricsPayload (p : MetricsPayload) : String :=
  "\x7b symbol: " ++ renderJVal p.symbol ++ ", date: " ++
  (match p.date with | none => "undefined" | some v => renderJVal v) ++
  ", sourceMessage: " ++ p.sourceMessage ++ ", metrics: \x7b " ++
  String.intercalate ", " (p.metrics.map renderField) ++ " \x7d \x7d"

/-- The full `key_metrics_ttm` handler. -/
def key_metrics_ttm (fetched : Except String (Option RawRecord))
    (symbol : String) : ToolResult :=
  match fetched with
  | .error e => textResult ("Error in key_metrics_ttm: " ++ e)
  | .ok none => textResult "No TTM key metrics found for the symbol."
  | .ok (some allMetrics) =>
    if allMetrics.isEmpty then
      textResult "No TTM key metrics found for the symbol."
    else
      textResult (renderMetricsPayload (metricsCurate allMetrics symbol))

/-! ### company_profile (part_000 lines 97–166) -/

/-- JS `profileData.description && profileData.description.length > 300 ?
profileData.description.substring(0, 300) + "... (truncated)" :
profileData.description`.  A non-string or falsy value falls into the else
branch and passes through unchanged (on a truthy non-string, the JS `.length`
is `undefined` and `undefined > 300` is `false`). -/
def truncDescription (v : Option JVal) : Option JVal :=
  match v with
  | some (JVal.str s) =>
    if s.length > 300 then some (JVal.str (jsSubstring s 300 ++ "... (truncated)"))
    else some (JVal.str s)
  | other => other

def profileFieldNames : List String :=
  ["symbol", "companyName", "price", "currency", "exchangeShortName", "industry",
   "sector", "website", "ceo", "beta", "volAvg", "lastDiv", "range",
   "isActivelyTrading"]

/-- The curated profile (part_000 lines 128–148): every field is copied
verbatim (null and undefined included); `marketCap` is renamed from `mktCap`
and `description` is truncated. -/
def profileProjection (profileData : RawRecord) : List (String × Option JVal) :=
  [("symbol", getField profileData "symbol"),
   ("companyName", getField profileData "companyName"),
   ("price", getField profileData "price"),
   ("currency", getField profileData "currency"),
   ("exchangeShortName", getField profileData "exchangeShortName"),
   ("industry", getField profileData "industry"),
   ("sector", getField profileData "sector"),
   ("website", getField profileData "website"),
   ("description", truncDescription (getField profileData "description")),
   ("ceo", getField profileData "ceo"),
   ("marketCap", getField profileData "mktCap"),
   ("beta", getField profileData "beta"),
   ("volAvg", getField profileData "volAvg"),
   ("lastDiv", getField profileData "lastDiv"),
   ("range", getField profileData "range"),
   ("isActivelyTrading", getField profileData "isActivelyTrading")]

def renderProjection (fields : List (String × Option JVal)) : String :=
  "\x7b " ++ String.intercalate ", " (fields.map renderFieldOpt) ++ " \x7d"

/-- The full `company_profile` handler. -/
def company_profile (fetched : Except String (Option RawRecord)) : ToolResult :=
  match fetched with
  | .error e => textResult ("Error in company_profile: " ++ e)
  | .ok none => textResult "No company profile data found for the symbol."
  | .ok (some profileData) =>
    if profileData.isEmpty then
      textResult "No company profile data found for the symbol."
    else
      textResult (renderProjection (profileProjection profileData))

/-! ### quote (part_000 lines 168–232) -/

def quoteFieldNames : List String :=
  ["symbol", "name", "price", "changesPercentage", "change", "dayLow", "dayHigh",
   "yearHigh", "yearLow", "marketCap", "priceAvg50", "priceAvg200", "volume",
   "avgVolume", "open", "previousClose", "eps", "pe", "timestamp"]

/-- The curated quote: a straight verbatim copy of the essential fields. -/
def quoteProjection (quoteData : RawRecord) : List (String × Option JVal) :=
  quoteFieldNames.map (fun k => (k, getField quoteData k))

/-- The full `quote` handler. -/
def quote (fetched : Except String (Option RawRecord)) : ToolResult :=
  match fetched with
  | .error e => textResult ("Error in quote: " ++ e)
  | .ok none => textResult "No quote data found for the symbol."
  | .ok (some quoteData) =>
    if quoteData.isEmpty then
      textResult "No quote data found for the symbol."
    else
      textResult (renderProjection (quoteProjection quoteData))

/-! ### dcf_valuation (part_000 lines 1032–1121) -/

/-- The DCF record (post array normalization).  `stockPriceSpace` is the
`"Stock Price"` key, `stockPriceCamel` the `stockPrice` key; numbers only,
`none` = null/undefined/absent. -/
structure DcfData where
  symbol : Option String
  date : Option String
  stockPriceSpace : Option ℚ
  stockPriceCamel : Option ℚ
  dcf : Option ℚ
deriving Repr, DecidableEq

structure DcfOut where
  symbol : String
  date : Option String
  stockPrice : Option ℚ
  dcfValue : Option ℚ
  currency : String
  potentialUpsidePercent : Option ℚ
  message : String
deriving Repr, DecidableEq

inductive DcfResult where
  | noData (text : String)
  | payload (d : DcfOut)
deriving Repr, DecidableEq

def dcfPayloadOf : DcfResult → Option DcfOut
  | .noData _ => none
  | .payload d => some d

/-- Curation of the DCF record (part_000 lines 1049–1087). -/
def dcfCurate (symbolArg : String) (dcfData : Option DcfData) : DcfResult :=
  match dcfData with
  | none =>
    .noData ("No DCF valuation data found for " ++ symbolArg ++
      ". This might be due to data availability or the company type.")
  | some d =>
    if ¬ratTruthy d.dcf then
      .noData ("No DCF valuation data found for " ++ symbolArg ++
        ". This might be due to data availability or the company type.")
    else
      let stockPrice := jsOrNum d.stockPriceSpace d.stockPriceCamel
      let dcfValue := d.dcf
      let potentialUpsidePercent : Option ℚ :=
        match stockPrice, dcfValue with
        | some sp, some dv =>
          if ¬(sp == 0) ∧ ¬(dv == 0) ∧ sp > 0 then some ((dv - sp) / sp * 100)
          else none
        | _, _ => none
      .payload
        { symbol := jsOrStr d.symbol symbolArg
          date := d.date
          stockPrice := stockPrice
          dcfValue := dcfValue
          currency := "USD"
          potentialUpsidePercent :=
            match potentialUpsidePercent with
            | some q => if ¬(q == 0) then some (round2 q) else none
            | none => none
          message :=
            match potentialUpsidePercent with
            | some q =>
              if q > 0 then "DCF suggests a potential upside of " ++ fixed2 q ++ "%."
              else "DCF suggests a potential downside of " ++ fixed2 (-q) ++ "%."
            | none => "Could not calculate potential upside." }

def renderDcfOut (d : DcfOut) : String :=
  "\x7b symbol: " ++ d.symbol ++ ", date: " ++
  (match d.date with | none => "undefined" | some s => s) ++ ", stockPrice: " ++
  (match d.stockPrice with | none => "undefined" | some q => toString q) ++
  ", dcfValue: " ++ (match d.dcfValue with | none => "undefined" | some q => toString q) ++
  ", currency: " ++ d.currency ++ ", potentialUpsidePercent: " ++
  (match d.potentialUpsidePercent with | none => "null" | some q => toString q) ++
  ", message: " ++ d.message ++ " \x7d"

/-- The full `dcf_valuation` handler.  A thrown error with a structured
`{"Error Message": ...}` body is reported with that message. -/
def dcf_valuation (fetched : Except (Option String × String) (Option DcfData))
    (symbol : String) : ToolResult :=
  match fetched with
  | .error (some fmpMsg, _) =>
    textResult ("Error fetching DCF for " ++ symbol ++ ": " ++ fmpMsg)
  | .error (none, e) =>
    textResult ("Error in dcf_valuation for " ++ symbol ++ ": " ++ e ++
      ". This could be due to data unavailability for the symbol (e.g., non-US stock, financial institution, or new IPO).")
  | .ok dcfData =>
    match dcfCurate symbol dcfData with
    | .noData t => textResult t
    | .payload d => textResult (renderDcfOut d)

/-! ### search_symbol (part_000 lines 29–95) -/

structure SearchRec where
  symbol : String
  name : String
  currency : Option String
  exchangeShortName : Option String
deriving Repr, DecidableEq

def MAX_RESULTS_TO_LLM_SEARCH : Nat := 5

def renderSearchRec (r : SearchRec) : String :=
  "\x7b symbol: " ++ r.symbol ++ ", name: " ++ r.name ++ ", currency: " ++
  (match r.currency with | none => "undefined" | some s => s) ++
  ", exchangeShortName: " ++
  (match r.exchangeShortName with | none => "undefined" | some s => s) ++ " \x7d"

/-- The full `search_symbol` handler. -/
def search_symbol (fetched : Except String (List SearchRec)) : ToolResult :=
  match fetched with
  | .error e => textResult ("Error in search_symbol: " ++ e)
  | .ok results =>
    if results.isEmpty then
      textResult "No symbols found matching your query."
    else
      let summarizedResults := results.take MAX_RESULTS_TO_LLM_SEARCH
      if results.length > MAX_RESULTS_TO_LLM_SEARCH then
        textResult ("\x7b message: Displaying top " ++ toString MAX_RESULTS_TO_LLM_SEARCH ++
          " of " ++ toString results.length ++
          " symbols fetched. Be more specific if your target is not listed., matches: [" ++
          String.intercalate ", " (summarizedResults.map renderSearchRec) ++ "] \x7d")
      else
        textResult ("[" ++ String.intercalate ", " (summarizedResults.map renderSearchRec) ++ "]")

/-! ### Concrete inputs used by the claim theorems -/

def c1point : PricePoint := ⟨0, 1, 2, 1, some 2, 100, none⟩

def c7long : String := String.mk (List.replicate 301 'a')
def c7short : String := "short text"

def c10p (i : Nat) : IndPoint := ⟨(i : ℤ), some (50 + i), none, none, none⟩

/-- Sixty-one points, newest-first: chronologically first point (date 0) has close
100, chronologically last point (date 60) has close 0 (present, but falsy in
JS). -/
def c2cex : List PricePoint :=
  (⟨60, 1, 1, 1, some 0, 10, none⟩ : PricePoint) ::
    ((List.range 59).map (fun i => (⟨(59 : ℤ) - i, 1, 1, 1, some 1, 10, none⟩ : PricePoint))
      ++ [⟨0, 1, 1, 1, some 100, 10, none⟩])

/-- Sixty-one points, newest-first, truthy closes: chronologically first (date 0)
close 1, chronologically last (date 60) close 2. -/
def c2wit : List PricePoint :=
  (⟨60, 1, 1, 1, some 2, 10, none⟩ : PricePoint) ::
    ((List.range 59).map (fun i => (⟨(59 : ℤ) - i, 1, 1, 1, some 1, 10, none⟩ : PricePoint))
      ++ [⟨0, 1, 1, 1, some 1, 10, none⟩])

def c2witF : PricePoint := ⟨0, 1, 1, 1, some 1, 10, none⟩
def c2witL : PricePoint := ⟨60, 1, 1, 1, some 2, 10, none⟩

/-- Four indicator points arriving oldest-first (ascending dates). -/
def c3cex : List IndPoint :=
  [⟨1, some 10, none, none, none⟩, ⟨2, some 11, none, none, none⟩,
   ⟨3, some 12, none, none, none⟩, ⟨4, some 13, none, none, none⟩]

def c3d1 : DividendRec := ⟨1, "March 25", some 1, some 1, "", "", ""⟩
def c3d2 : DividendRec := ⟨2, "June 25", some 1, some 1, "", "", ""⟩
def c3d3 : DividendRec := ⟨3, "September 25", some 1, some 1, "", "", ""⟩
def c3ds : List DividendRec := [c3d1, c3d3, c3d2]

def c4rec (i : Nat) : EarnRec :=
  ⟨"2025-06-" ++ toString i, "SYM" ++ toString i, none, some 1, none, some 1, "amc",
    "2025-06-30"⟩

/-- Eleven earnings records. -/
def c4cex : List EarnRec := (List.range 11).map c4rec

def c4art (i : Nat) : Article :=
  ⟨(i : ℤ), "Title " ++ toString i, "example.com", "https://example.com/" ++ toString i,
    some "body"⟩

/-- Four fetched news articles. -/
def c4arts : List Article := [c4art 4, c4art 3, c4art 2, c4art 1]

/-- A profile record whose `price` is present but null. -/
def c5profile : RawRecord :=
  [("symbol", JVal.str "AAPL"), ("price", JVal.jnull), ("mktCap", JVal.num 1000)]

/-- A DCF record whose `"Stock Price"` key is present and non-null with value
0, while `stockPrice` is 50. -/
def c5dcf : DcfData := ⟨some "AAPL", some "2025-06-30", some 0, some 50, some 10⟩

/-- A TTM-ratios record with one curated key. -/
def c5ratios : RawRecord := [("peRatioTTM", JVal.num 30), ("extraTTM", JVal.num 7)]

def c6eq : DcfData := ⟨none, none, some 100, none, some 100⟩

def c6up : DcfData := ⟨none, none, some 100, none, some 150⟩
def c6down : DcfData := ⟨none, none, some 100, none, some 80⟩
def c6zero : DcfData := ⟨none, none, none, some 0, some 80⟩

def analystSummaryOf : AnalystResult → Option AnalystSummary
  | .summary s => some s
  | _ => none

def c9pt : PTData := ⟨some "2025-06-30", some 120, some 80, some 100, some 101, some 12⟩

def c9est : EstRec := ⟨"2025-09-30", some 1000000, some 2⟩

/-! ### Helper lemmas -/

theorem strLen_append (s t : String) : (s ++ t).length = s.length + t.length := by
  cases s with
  | mk a =>
    cases t with
    | mk b =>
      show (a ++ b).length = a.length + b.length
      exact List.length_append a b

theorem jsSubstring_length (s : String) (n : Nat) :
    (jsSubstring s n).length = min n s.length := by
  cases s with
  | mk a =>
    show (a.take n).length = min n a.length
    exact List.length_take n a

theorem isSingleText_textResult (s : String) : isSingleText (textResult s) = true := rfl

/-! ### C1 -/

/-- C1: for a fetched historical series of `N` points, `full` detail returns a
data array of exactly `min N 150` OHLCV-projected points, and `summary` detail
with `N ≤ 60` returns exactly `N` projected points with no statistical digest. -/
theorem C1_hist_output_sizes (h : HistShape) :
    dataLenOf (historicalCurate (sortDesc (histFlatten h)) Detail.full)
      = some (min (histFlatten h).length MAX_POINTS_FOR_FULL_DETAIL) ∧
    ((histFlatten h).length ≤ POINTS_THRESHOLD_FOR_SUMMARY →
      dataLenOf (historicalCurate (sortDesc (histFlatten h)) Detail.summary)
        = some (histFlatten h).length ∧
      digestOf (historicalCurate (sortDesc (histFlatten h)) Detail.summary) = none) := by
  have hlen : (sortDesc (histFlatten h)).length = (histFlatten h).length :=
    List.length_insertionSort _ _
  constructor
  · simp [historicalCurate, dataLenOf, List.length_take, hlen, Nat.min_comm]
  · intro hle
    have hnot : ¬ POINTS_THRESHOLD_FOR_SUMMARY < (histFlatten h).length :=
      Nat.not_lt.mpr hle
    refine ⟨?_, ?_⟩
    · simp [historicalCurate, dataLenOf, hnot, hlen]
    · simp [historicalCurate, digestOf, hnot, hlen]

/-- C1 witness: a one-point daily series in summary mode returns that one
point and no digest. -/
theorem C1_hist_output_sizes_witness :
    (histFlatten (HistShape.arr [c1point])).length ≤ POINTS_THRESHOLD_FOR_SUMMARY ∧
    dataLenOf (historicalCurate (sortDesc (histFlatten (HistShape.arr [c1point])))
      Detail.summary) = some 1 ∧
    digestOf (historicalCurate (sortDesc (histFlatten (HistShape.arr [c1point])))
      Detail.summary) = none :=
  ⟨by decide, (C1_hist_output_sizes (HistShape.arr [c1point])).2 (by decide)⟩

/-! ### C7 -/

/-- C7: the two text truncations (company description, maxLen 300 with marker
"... (truncated)"; news snippet, maxLen 200 with marker "...") return the
first maxLen characters plus the marker when the text is longer than maxLen
(so the output length is maxLen + marker length), return the input unchanged
at or under maxLen, and pass null/undefined through unchanged. -/
theorem C7_truncation :
    (∀ s : String, 300 < s.length →
      truncDescription (some (JVal.str s)) =
        some (JVal.str (jsSubstring s 300 ++ "... (truncated)")) ∧
      (jsSubstring s 300 ++ "... (truncated)").length = 300 + "... (truncated)".length) ∧
    (∀ s : String, s.length ≤ 300 →
      truncDescription (some (JVal.str s)) = some (JVal.str s)) ∧
    truncDescription none = none ∧
    (∀ s : String, 200 < s.length →
      truncSnippet (some s) = some (jsSubstring s 200 ++ "...") ∧
      (jsSubstring s 200 ++ "...").length = 200 + "...".length) ∧
    (∀ s : String, s.length ≤ 200 → truncSnippet (some s) = some s) ∧
    truncSnippet none = none := by
  refine ⟨?_, ?_, rfl, ?_, ?_, rfl⟩
  · intro s hs
    refine ⟨by simp [truncDescription, hs], ?_⟩
    rw [strLen_append, jsSubstring_length]
    have : min 300 s.length = 300 := Nat.min_eq_left (Nat.le_of_lt hs)
    rw [this]
  · intro s hs
    have : ¬ s.length > 300 := Nat.not_lt.mpr hs
    simp [truncDescription, this]
  · intro s hs
    refine ⟨by simp [truncSnippet, hs], ?_⟩
    rw [strLen_append, jsSubstring_length]
    have : min 200 s.length = 200 := Nat.min_eq_left (Nat.le_of_lt hs)
    rw [this]
  · intro s hs
    have : ¬ s.length > 200 := Nat.not_lt.mpr hs
    simp [truncSnippet, this]

/-- C7 witness: a 301-character description is truncated to 300 characters
plus the 16-character marker; a short snippet passes through unchanged. -/
theorem C7_truncation_witness :
    300 < c7long.length ∧
    truncDescription (some (JVal.str c7long)) =
      some (JVal.str (jsSubstring c7long 300 ++ "... (truncated)")) ∧
    (jsSubstring c7long 300 ++ "... (truncated)").length = 300 + "... (truncated)".length ∧
    c7short.length ≤ 200 ∧
    truncSnippet (some c7short) = some c7short := by
  have hl : c7long.length = 301 := by
    show (List.replicate 301 'a').length = 301
    exact List.length_replicate 301 'a'
  have h1 : 300 < c7long.length := by omega
  have h2 : c7short.length ≤ 200 := by decide
  exact ⟨h1, (C7_truncation.1 c7long h1).1, (C7_truncation.1 c7long h1).2, h2,
    C7_truncation.2.2.2.2.1 c7short h2⟩

/-! ### C10 -/

/-- C10: `technical_indicator` wraps the first 3 projected values in a
`{message, indicator, values}` envelope when the fetched array has more than 3
entries, and returns the bare projected array (no message, no indicator
wrapper) when it has 3 or fewer. -/
theorem C10_indicator_shape (vals : List IndPoint) (indicatorType : String) :
    (RECENT_VALUES_COUNT < vals.length →
      technicalCurate vals indicatorType =
        IndPayload.envelope
          ("Showing " ++ toString ((vals.take RECENT_VALUES_COUNT).map
              (projInd indicatorType)).length ++
           " most recent " ++ indicatorType ++ " values of " ++ toString vals.length ++
           " fetched. Full series available via API.")
          indicatorType ((vals.take RECENT_VALUES_COUNT).map (projInd indicatorType)) ∧
      ((vals.take RECENT_VALUES_COUNT).map (projInd indicatorType)).length =
        RECENT_VALUES_COUNT) ∧
    (vals.length ≤ RECENT_VALUES_COUNT →
      technicalCurate vals indicatorType = IndPayload.bare (vals.map (projInd indicatorType))) := by
  constructor
  · intro hgt
    have hnot : ¬ vals.length ≤ RECENT_VALUES_COUNT := Nat.not_le.mpr hgt
    refine ⟨by simp [technicalCurate, hnot], ?_⟩
    simp [List.length_take]
    omega
  · intro hle
    have htake : vals.take RECENT_VALUES_COUNT = vals := List.take_of_length_le hle
    simp [technicalCurate, hle, htake]

/-- C10 witness: four fetched SMA points produce the 3-value envelope; two
fetched points come back as the bare projected array. -/
theorem C10_indicator_shape_witness :
    technicalCurate [c10p 1, c10p 2, c10p 3, c10p 4] "SMA" =
      IndPayload.envelope
        ("Showing " ++ toString ([c10p 1, c10p 2, c10p 3].map (projInd "SMA")).length ++
         " most recent SMA values of " ++ toString [c10p 1, c10p 2, c10p 3, c10p 4].length ++
         " fetched. Full series available via API.")
        "SMA" ([c10p 1, c10p 2, c10p 3].map (projInd "SMA")) ∧
    technicalCurate [c10p 1, c10p 2] "SMA" =
      IndPayload.bare ([c10p 1, c10p 2].map (projInd "SMA")) :=
  ⟨((C10_indicator_shape [c10p 1, c10p 2, c10p 3, c10p 4] "SMA").1 (by decide)).1,
   (C10_indicator_shape [c10p 1, c10p 2] "SMA").2 (by decide)⟩

/-! ### C8 -/

/-- C8: every modelled tool invocation — successful data, empty upstream
data, or upstream failure — returns exactly one content item of text kind,
and empty upstream data yields the tool's single "no data" text result. -/
theorem C8_single_text_item :
    (∀ f d, isSingleText (historical_stock_data f d) = true) ∧
    (∀ f sym intv ity p, isSingleText (technical_indicator f sym intv ity p) = true) ∧
    (∀ f d, isSingleText (stock_news f d) = true) ∧
    (∀ f b, isSingleText (earnings_calendar f b) = true) ∧
    (∀ f sym lim, isSingleText (dividend_calendar f sym lim) = true) ∧
    (∀ ef pf sym, isSingleText (analyst_estimates ef pf sym) = true) ∧
    (∀ f sym, isSingleText (financial_ratios_ttm f sym) = true) ∧
    (∀ f sym, isSingleText (key_metrics_ttm f sym) = true) ∧
    (∀ f, isSingleText (company_profile f) = true) ∧
    (∀ f, isSingleText (quote f) = true) ∧
    (∀ f sym, isSingleText (dcf_valuation f sym) = true) ∧
    (∀ f, isSingleText (search_symbol f) = true) ∧
    (∀ d, historical_stock_data (Except.ok (some (HistShape.arr []))) d =
      textResult "No historical data found for the given parameters.") ∧
    (∀ d, stock_news (Except.ok []) d = textResult "No news found for the given symbol(s).") ∧
    (∀ b, earnings_calendar (Except.ok []) b =
      textResult "No earnings calendar data found for the given parameters.") ∧
    (∀ sym lim, dividend_calendar (Except.ok (some [])) sym lim =
      textResult ("No dividend data found for " ++ sym ++
        ". The company may not pay dividends or data may be unavailable.")) ∧
    (∀ sym, analyst_estimates (Except.ok []) (Except.ok none) sym =
      textResult "No analyst estimates or price target data found for the symbol.") ∧
    (∀ sym, financial_ratios_ttm (Except.ok (some ([] : RawRecord))) sym =
      textResult "No TTM financial ratios found for the symbol.") := by
  refine ⟨?_, ?_, ?_, ?_, ?_, ?_, ?_, ?_, ?_, ?_, ?_, ?_,
    fun _ => rfl, fun _ => rfl, fun _ => rfl, fun _ _ => rfl, fun _ => rfl, fun _ => rfl⟩
  · intro f d
    rcases f with e | o
    · rfl
    · rcases o with _ | h
      · rfl
      · simp only [historical_stock_data]
        split
        · rfl
        · split
          · rfl
          · rfl
  · intro f sym intv ity p
    rcases f with e | o
    · rfl
    · rcases o with _ | h
      · rfl
      · rcases h with vals | v
        · simp only [technical_indicator]
          split
          · rfl
          · rfl
        · rfl
  · intro f d
    rcases f with e | arts
    · rfl
    · simp only [stock_news]
      split
      · rfl
      · rfl
  · intro f b
    rcases f with e | data
    · rfl
    · simp only [earnings_calendar]
      split
      · rfl
      · rfl
  · intro f sym lim
    rcases f with e | o
    · rfl
    · rcases o with _ | ds
      · rfl
      · simp only [dividend_calendar]
        split
        · rfl
        · rfl
  · intro ef pf sym
    simp only [analyst_estimates]
    split
    · rfl
    · rfl
    · rfl
  · intro f sym
    rcases f with e | o
    · rfl
    · rcases o with _ | r
      · rfl
      · simp only [financial_ratios_ttm]
        split
        · rfl
        · rfl
  · intro f sym
    rcases f with e | o
    · rfl
    · rcases o with _ | r
      · rfl
      · simp only [key_metrics_ttm]
        split
        · rfl
        · rfl
  · intro f
    rcases f with e | o
    · rfl
    · rcases o with _ | r
      · rfl
      · simp only [company_profile]
        split
        · rfl
        · rfl
  · intro f
    rcases f with e | o
    · rfl
    · rcases o with _ | r
      · rfl
      · simp only [quote]
        split
        · rfl
        · rfl
  · intro f sym
    rcases f with e | o
    · rcases e with ⟨fmp | _, msg⟩
      · rfl
      · rfl
    · simp only [dcf_valuation]
      split
      · rfl
      · rfl
  · intro f
    rcases f with e | results
    · rfl
    · simp only [search_symbol]
      split
      · rfl
      · split
        · rfl
        · rfl

/-! ### C2 -/

set_option maxRecDepth 4000 in
/-- C2 counterexample: on `c2cex` both the chronologically first and last
closes are present and the first close is nonzero, yet `priceChangePercent`
is null (the claim demands `(0 - 100) / 100 * 100 = -100`), and the summary
message does not contain "could not calculate". -/
theorem C2_counterexample :
    (sortAsc (sortDesc c2cex)).head?.map (fun p => p.close) = some (some 100) ∧
    (sortAsc (sortDesc c2cex)).getLast?.map (fun p => p.close) = some (some 0) ∧
    (digestOf (historicalCurate (sortDesc c2cex) Detail.summary)).map
      (fun d => d.priceChangePercent) = some none ∧
    (digestOf (historicalCurate (sortDesc c2cex) Detail.summary)).map
      (fun d => strContains d.message "could not calculate") = some false := by
  decide

/-- C2 (amended): in the `summary` digest (more than 60 points),
`priceChangePercent` equals `(last.close - first.close) / first.close * 100`
over the chronologically first and last points exactly when both closes are
*truthy* (present and nonzero) and is null otherwise (never a malformed
number); the digest message is the fixed summary header, determined only by
the point count and the first/last dates — it never changes to reflect
"could not calculate" in the null case. -/
theorem C2_amended (dp : List PricePoint) (f l : PricePoint)
    (hgt : POINTS_THRESHOLD_FOR_SUMMARY < dp.length)
    (hf : (sortAsc dp).head? = some f) (hl : (sortAsc dp).getLast? = some l) :
    (digestOf (historicalCurate dp Detail.summary)).map (fun d => d.priceChangePercent) =
      some (if ratTruthy l.close && ratTruthy f.close then
        some ((l.close.getD 0 - f.close.getD 0) / f.close.getD 0 * 100) else none) ∧
    (digestOf (historicalCurate dp Detail.summary)).map (fun d => d.message) =
      some (histSummaryMsg dp.length f.date l.date) := by
  cases hc : sortAsc dp with
  | nil => rw [hc] at hf; simp at hf
  | cons a rest =>
    rw [hc] at hf hl
    have ha : a = f := by simpa using hf
    subst ha
    have hlast : (a :: rest).getLast (List.cons_ne_nil a rest) = l := by
      have hgl := List.getLast?_eq_getLast (a :: rest) (List.cons_ne_nil a rest)
      rw [hgl] at hl
      exact Option.some.inj hl
    simp only [historicalCurate]
    rw [if_neg (by simp : ¬ (Detail.summary = Detail.full)), if_pos hgt, hc]
    simp only [digestOf, Option.map_some]
    rw [hlast]
    exact ⟨rfl, rfl⟩

set_option maxRecDepth 4000 in
/-- C2 witness: on `c2wit` the digest's percent change is
`(2 - 1) / 1 * 100 = 100` and its message is the fixed summary header. -/
theorem C2_amended_witness :
    (digestOf (historicalCurate c2wit Detail.summary)).map (fun d => d.priceChangePercent)
      = some (some 100) ∧
    (digestOf (historicalCurate c2wit Detail.summary)).map (fun d => d.message)
      = some (histSummaryMsg 61 0 60) := by
  have h := C2_amended c2wit c2witF c2witL (by decide) (by decide) (by decide)
  refine ⟨?_, ?_⟩
  · rw [h.1]
    simp only [c2witF, c2witL, ratTruthy]
    norm_num
  · rw [h.2]
    decide

/-! ### C3 -/

/-- C3 counterexample: on an ascending-by-date indicator array the surfaced
values are the three *oldest* points (dates 1, 2, 3) — the most recent record
(date 4) is present upstream but absent from the output, because the slice is
taken from the array start with no defensive re-sort. -/
theorem C3_counterexample :
    indShownDates (technicalCurate c3cex "SMA") = [1, 2, 3] ∧
    (4 : ℤ) ∈ c3cex.map (fun v => v.date) ∧
    (4 : ℤ) ∉ indShownDates (technicalCurate c3cex "SMA") := by
  decide

/-- C3 (amended): dividend records (like historical prices) are defensively
re-sorted descending-by-date before capping, so the surfaced dividends are
the most recent ones regardless of upstream order (the kept prefix dominates
the dropped suffix by date); but news articles and technical-indicator values
are sliced from the upstream array start with no re-sort, so for them "most
recent" holds only if the provider already returned newest-first data. -/
theorem C3_amended (ds : List DividendRec) (limit : Nat) (sym : String)
    (arts : List Article) (d : Detail) (vals : List IndPoint) (ity : String) :
    List.Perm (sortDivDesc ds) ds ∧
    List.Sorted divDescByDate (sortDivDesc ds) ∧
    (dividendCurate ds limit sym).dividends = ((sortDivDesc ds).take limit).map projDividend ∧
    (∀ x ∈ (sortDivDesc ds).take limit, ∀ y ∈ (sortDivDesc ds).drop limit, y.date ≤ x.date) ∧
    newsShown (newsCurate arts d) = (arts.take (newsShowCount arts d)).map projArticle ∧
    indShownDates (technicalCurate vals ity) =
      (vals.take RECENT_VALUES_COUNT).map (fun v => v.date) := by
  refine ⟨List.perm_insertionSort _ _, List.sorted_insertionSort _ _, ?_, ?_, ?_, ?_⟩
  · simp only [dividendCurate]
    split <;> rfl
  · intro x hx y hy
    have hs : List.Sorted divDescByDate (sortDivDesc ds) := List.sorted_insertionSort _ _
    have hsplit := List.take_append_drop limit (sortDivDesc ds)
    have hp : List.Pairwise divDescByDate
        ((sortDivDesc ds).take limit ++ (sortDivDesc ds).drop limit) := by
      rw [hsplit]; exact hs
    exact (List.pairwise_append.mp hp).2.2 x hx y hy
  · simp only [newsCurate]
    split <;> rfl
  · have hfun : ((fun x : IndOut => x.date) ∘ projInd ity) = (fun v : IndPoint => v.date) :=
      funext (fun v => rfl)
    unfold technicalCurate
    split <;> simp [indShownDates, List.map_map, hfun]

/-- C3 witness: three dividend records arriving out of order with limit 2 —
the output is the capped descending re-sort, and a surfaced record's date
dominates a dropped record's date. -/
theorem C3_amended_witness :
    (dividendCurate c3ds 2 "AAPL").dividends = ((sortDivDesc c3ds).take 2).map projDividend ∧
    c3d1.date ≤ c3d3.date := by
  have h := C3_amended c3ds 2 "AAPL" [] Detail.summary [] "SMA"
  exact ⟨h.2.2.1, h.2.2.2.1 c3d3 (by decide) c3d1 (by decide)⟩

/-! ### C4 -/

/-- C4 counterexample: `earnings_calendar` with a symbol argument and 11
fetched records shows `min(11, 10) = 10` of them but attaches no message at
all — neither a "K of N" statement nor an upgrade hint — although
`shown < |items|`. -/
theorem C4_counterexample :
    c4cex.length = 11 ∧
    earnShownCount (earningsCurate true c4cex) = 10 ∧
    earnMessageOf (earningsCurate true c4cex) = none := by
  decide

/-- C4 (amended): both families cap at `shown = min(|items|, tier count)`
(news: 3 summary / 10 full; earnings: hard cap 10).  But the K-of-N message is
attached only on specific branches: news carries a message exactly when detail
is `full` or more than 3 articles were fetched (a bare array with no count
otherwise), and earnings carries its K-of-N message exactly when no symbol was
given and more than 10 records were fetched — otherwise the capped bare array
has no message even when `shown < |items|`. -/
theorem C4_amended :
    (∀ (arts : List Article) (d : Detail),
      (newsShown (newsCurate arts d)).length =
        min arts.length (if d = Detail.full then ARTICLES_FOR_FULL_DETAIL
          else ARTICLES_FOR_SUMMARY)) ∧
    (∀ (arts : List Article) (d : Detail),
      newsMessageOf (newsCurate arts d) = none ↔
        (d = Detail.summary ∧ arts.length ≤ ARTICLES_FOR_SUMMARY)) ∧
    (∀ (b : Bool) (data : List EarnRec),
      earnShownCount (earningsCurate b data) = min data.length MAX_RESULTS_TO_LLM_EARNINGS) ∧
    (∀ (b : Bool) (data : List EarnRec),
      earnMessageOf (earningsCurate b data) ≠ none ↔
        (b = false ∧ MAX_RESULTS_TO_LLM_EARNINGS < data.length)) ∧
    (∀ (b : Bool) (data : List EarnRec), b = false →
      MAX_RESULTS_TO_LLM_EARNINGS < data.length →
      earnMessageOf (earningsCurate b data) =
        some ("Displaying first " ++ toString MAX_RESULTS_TO_LLM_EARNINGS ++ " of " ++
          toString data.length ++
          " earnings events. Specify a symbol or a tighter date range for more targeted results.")) := by
  have hshown : ∀ (arts : List Article) (d : Detail),
      newsShown (newsCurate arts d) = (arts.take (newsShowCount arts d)).map projArticle := by
    intro arts d
    simp only [newsCurate]
    split <;> rfl
  have hmsg : ∀ (arts : List Article) (d : Detail),
      newsMessageOf (newsCurate arts d) = none ↔
        ¬(arts.length > ((arts.take (newsShowCount arts d)).map projArticle).length ∨
          (d = Detail.full ∧ arts.length ≥ newsShowCount arts d)) := by
    intro arts d
    simp only [newsCurate]
    split <;> rename_i h
    · exact iff_of_false (by simp [newsMessageOf]) (not_not_intro h)
    · exact iff_of_true rfl h
  refine ⟨?_, ?_, ?_, ?_, ?_⟩
  · intro arts d
    rw [hshown]
    cases d <;> simp [newsShowCount, List.length_take]
  · intro arts d
    rw [hmsg]
    cases d <;> simp [newsShowCount, List.length_take, ARTICLES_FOR_SUMMARY]
  · intro b data
    simp only [earningsCurate]
    split <;> simp [earnShownCount, List.length_take] <;> omega
  · intro b data
    simp only [earningsCurate]
    split <;> simp_all [earnMessageOf]
  · intro b data hb hlen
    subst hb
    simp [earningsCurate, earnMessageOf, hlen]

/-- C4 witness: 4 articles in summary mode show `min 4 3 = 3`; 11 earnings
records with no symbol show the K-of-N message. -/
theorem C4_amended_witness :
    (newsShown (newsCurate c4arts Detail.summary)).length = min c4arts.length 3 ∧
    earnShownCount (earningsCurate false c4cex) = min c4cex.length 10 ∧
    earnMessageOf (earningsCurate false c4cex) =
      some ("Displaying first " ++ toString MAX_RESULTS_TO_LLM_EARNINGS ++ " of " ++
        toString c4cex.length ++
        " earnings events. Specify a symbol or a tighter date range for more targeted results.") :=
  ⟨C4_amended.1 c4arts Detail.summary, C4_amended.2.2.1 false c4cex,
    C4_amended.2.2.2.2 false c4cex rfl (by decide)⟩

/-! ### C5 -/

/-- C5 counterexample: the profile projection emits `price: null` (a
null-valued field appears in the projected record), and the DCF alias chain
resolves to the `stockPrice` alias (50) although the first alias
`"Stock Price"` is present and non-null (0) — the chain walks by truthiness,
not by present-and-non-null. -/
theorem C5_counterexample :
    ("price", some JVal.jnull) ∈ profileProjection c5profile ∧
    (dcfPayloadOf (dcfCurate "AAPL" (some c5dcf))).map (fun d => d.stockPrice) =
      some (some 50) := by
  decide

/-- C5 (amended): the TTM ratios dictionary projects a field exactly when its
key is present with a non-null value (so no null/undefined fields appear
there); but the single-record projections (profile, quote) copy every allowed
field verbatim — a null input value appears as a null output field — and the
DCF stock-price alias chain takes the first *truthy* alias, falling back to
the second verbatim. -/
theorem C5_amended (r : RawRecord) (k : String) (v : JVal) (p : RawRecord) :
    ((k, v) ∈ ratiosProjection r → v ≠ JVal.jnull ∧ getField r k = some v) ∧
    (k ∈ keyRatioNames → presentNonNull r k = some v → (k, v) ∈ ratiosProjection r) ∧
    ("price", getField p "price") ∈ profileProjection p ∧
    (∀ (q : RawRecord) (k' : String) (v' : Option JVal),
      (k', v') ∈ quoteProjection q → v' = getField q k') ∧
    (∀ a b : Option ℚ,
      (ratTruthy a = true → jsOrNum a b = a) ∧ (ratTruthy a = false → jsOrNum a b = b)) := by
  have hpnn : ∀ (r' : RawRecord) (k' : String) (v' : JVal),
      presentNonNull r' k' = some v' → v' ≠ JVal.jnull ∧ getField r' k' = some v' := by
    intro r' k' v' h
    unfold presentNonNull at h
    cases hg : getField r' k' with
    | none => simp [hg] at h
    | some w =>
      simp only [hg] at h
      by_cases hw : w = JVal.jnull
      · simp [hw] at h
      · simp only [if_neg hw] at h
        have hv : w = v' := Option.some.inj h
        subst hv
        exact ⟨hw, rfl⟩
  refine ⟨?_, ?_, ?_, ?_, ?_⟩
  · intro hmem
    unfold ratiosProjection at hmem
    rcases List.mem_append.mp hmem with hmem | hmem
    · rcases List.mem_filterMap.mp hmem with ⟨a, _, hfa⟩
      cases hpa : presentNonNull r a with
      | none => simp [hpa] at hfa
      | some w =>
        simp only [hpa] at hfa
        have hkv : (a, w) = (k, v) := Option.some.inj hfa
        have ha : a = k := congrArg Prod.fst hkv
        have hw : w = v := congrArg Prod.snd hkv
        subst ha; subst hw
        exact hpnn r a w hpa
    · cases hg : getField r "priceFairValueTTM" with
      | none => simp [hg] at hmem
      | some w =>
        simp only [hg] at hmem
        by_cases hw : w.truthy = true
        · simp only [if_pos hw] at hmem
          have hkv : (k, v) = ("priceFairValueTTM", w) := by simpa using hmem
          have hk : k = "priceFairValueTTM" := congrArg Prod.fst hkv
          have hv : v = w := congrArg Prod.snd hkv
          subst hk; subst hv
          refine ⟨?_, hg⟩
          intro hnull
          rw [hnull] at hw
          exact absurd hw (by simp [JVal.truthy])
        · simp [if_neg hw] at hmem
  · intro hk hpn
    unfold ratiosProjection
    refine List.mem_append.mpr (Or.inl ?_)
    exact List.mem_filterMap.mpr ⟨k, hk, by rw [hpn]⟩
  · unfold profileProjection
    exact List.mem_cons_of_mem _ (List.mem_cons_of_mem _ (List.mem_cons_self _ _))
  · intro q k' v' hmem
    unfold quoteProjection at hmem
    rcases List.mem_map.mp hmem with ⟨a, _, hfa⟩
    have hk : a = k' := congrArg Prod.fst hfa
    have hv : getField q a = v' := congrArg Prod.snd hfa
    rw [← hk, hv.symm]
  · intro a b
    constructor
    · intro h; simp [jsOrNum, h]
    · intro h; simp [jsOrNum, h]

/-- C5 witness: a projected ratio field is non-null and present in the raw
record, and a falsy first alias falls through to the second. -/
theorem C5_amended_witness :
    (JVal.num 30 ≠ JVal.jnull ∧ getField c5ratios "peRatioTTM" = some (JVal.num 30)) ∧
    jsOrNum (some 0) (some 50) = some 50 := by
  have h := C5_amended c5ratios "peRatioTTM" (JVal.num 30) c5profile
  exact ⟨h.1 (by decide), (h.2.2.2.2 (some 0) (some 50)).2 (by decide)⟩

/-! ### C6 -/

theorem dcfCurate_fields (symbolArg : String) (d : DcfData) (sp dv q : ℚ)
    (hsp : jsOrNum d.stockPriceSpace d.stockPriceCamel = some sp)
    (hdv : d.dcf = some dv) (hdvt : ¬ dv = 0) (hsppos : 0 < sp)
    (hq : (dv - sp) / sp * 100 = q) :
    dcfCurate symbolArg (some d) = DcfResult.payload
      { symbol := jsOrStr d.symbol symbolArg
        date := d.date
        stockPrice := some sp
        dcfValue := some dv
        currency := "USD"
        potentialUpsidePercent := if ¬(q == 0) then some (round2 q) else none
        message :=
          if q > 0 then "DCF suggests a potential upside of " ++ fixed2 q ++ "%."
          else "DCF suggests a potential downside of " ++ fixed2 (-q) ++ "%." } := by
  have hspne : ¬ sp = 0 := ne_of_gt hsppos
  simp only [dcfCurate, hdv, hsp]
  rw [if_neg (by simp [ratTruthy, hdvt])]
  rw [if_pos ⟨by simp [hspne], by simp [hdvt], hsppos⟩]
  rw [hq]

theorem dcfCurate_nullPrice (symbolArg : String) (d : DcfData) (dv : ℚ)
    (hsp : ratTruthy (jsOrNum d.stockPriceSpace d.stockPriceCamel) = false)
    (hdv : d.dcf = some dv) (hdvt : ¬ dv = 0) :
    dcfCurate symbolArg (some d) = DcfResult.payload
      { symbol := jsOrStr d.symbol symbolArg
        date := d.date
        stockPrice := jsOrNum d.stockPriceSpace d.stockPriceCamel
        dcfValue := some dv
        currency := "USD"
        potentialUpsidePercent := none
        message := "Could not calculate potential upside." } := by
  simp only [dcfCurate, hdv]
  rw [if_neg (by simp [ratTruthy, hdvt])]
  cases hj : jsOrNum d.stockPriceSpace d.stockPriceCamel with
  | none => simp [hj]
  | some sp =>
    rw [hj] at hsp
    have hsp0 : sp = 0 := by
      by_contra hne
      simp [ratTruthy, hne] at hsp
    simp [hj, hsp0]

/-- C6 counterexample: `dcfValue = 100, stockPrice = 100 > 0` (and dcf
present), but `potentialUpsidePercent` is null instead of the claimed
`0.00` — the JS output gate `potentialUpsidePercent ? ... : null` drops the
computed value 0 as falsy — while the message still reports a 0.00% downside
rather than "could not calculate". -/
theorem C6_counterexample :
    (dcfPayloadOf (dcfCurate "AAPL" (some c6eq))).map (fun o => o.stockPrice) =
      some (some 100) ∧
    (dcfPayloadOf (dcfCurate "AAPL" (some c6eq))).map (fun o => o.dcfValue) =
      some (some 100) ∧
    (dcfPayloadOf (dcfCurate "AAPL" (some c6eq))).map (fun o => o.potentialUpsidePercent) =
      some none ∧
    (dcfPayloadOf (dcfCurate "AAPL" (some c6eq))).map (fun o => o.message) =
      some "DCF suggests a potential downside of 0.00%." := by
  have hcur := dcfCurate_fields "AAPL" c6eq 100 100 0 (by decide) rfl (by norm_num)
    (by norm_num) (by norm_num)
  refine ⟨?_, ?_, ?_, ?_⟩ <;> rw [hcur] <;> decide

/-- C6 (amended): when the resolved stock price `sp` is positive and the dcf
value is truthy, the computed percent is `(dcf - sp) / sp * 100`; the output
field carries it rounded to 2 decimals **unless the computed percent is
exactly 0, in which case the output field is null** while the message still
branches on sign (a 0 percent produces the downside message); when the
resolved stock price is falsy (0 or absent), the field is null and the
message is "Could not calculate potential upside." — in particular 150/100
gives 50.00 with an upside message and 80/100 gives -20.00 with a downside
message. -/
theorem C6_amended :
    (∀ (symbolArg : String) (d : DcfData) (sp dv : ℚ),
      jsOrNum d.stockPriceSpace d.stockPriceCamel = some sp → d.dcf = some dv → ¬ dv = 0 →
      0 < sp →
      (dcfPayloadOf (dcfCurate symbolArg (some d))).map (fun o => o.potentialUpsidePercent) =
        some (if ¬((dv - sp) / sp * 100 == 0) then some (round2 ((dv - sp) / sp * 100))
          else none) ∧
      (dcfPayloadOf (dcfCurate symbolArg (some d))).map (fun o => o.message) =
        some (if (dv - sp) / sp * 100 > 0 then
            "DCF suggests a potential upside of " ++ fixed2 ((dv - sp) / sp * 100) ++ "%."
          else "DCF suggests a potential downside of " ++
            fixed2 (-((dv - sp) / sp * 100)) ++ "%.")) ∧
    (∀ (symbolArg : String) (d : DcfData) (dv : ℚ),
      ratTruthy (jsOrNum d.stockPriceSpace d.stockPriceCamel) = false → d.dcf = some dv →
      ¬ dv = 0 →
      (dcfPayloadOf (dcfCurate symbolArg (some d))).map (fun o => o.potentialUpsidePercent) =
        some none ∧
      (dcfPayloadOf (dcfCurate symbolArg (some d))).map (fun o => o.message) =
        some "Could not calculate potential upside.") := by
  constructor
  · intro symbolArg d sp dv hsp hdv hdvt hsppos
    rw [dcfCurate_fields symbolArg d sp dv ((dv - sp) / sp * 100) hsp hdv hdvt hsppos rfl]
    exact ⟨rfl, rfl⟩
  · intro symbolArg d dv hsp hdv hdvt
    rw [dcfCurate_nullPrice symbolArg d dv hsp hdv hdvt]
    exact ⟨rfl, rfl⟩

/-- C6 witness: dcf 150 / price 100 gives 50.00 with the upside message; dcf
80 / price 100 gives -20.00 with the downside message; price 0 gives null
with "Could not calculate potential upside." -/
theorem C6_amended_witness :
    (dcfPayloadOf (dcfCurate "AAPL" (some c6up))).map (fun o => o.potentialUpsidePercent) =
      some (some 50) ∧
    (dcfPayloadOf (dcfCurate "AAPL" (some c6up))).map (fun o => o.message) =
      some "DCF suggests a potential upside of 50.00%." ∧
    (dcfPayloadOf (dcfCurate "AAPL" (some c6down))).map (fun o => o.potentialUpsidePercent) =
      some (some (-20)) ∧
    (dcfPayloadOf (dcfCurate "AAPL" (some c6down))).map (fun o => o.message) =
      some "DCF suggests a potential downside of 20.00%." ∧
    (dcfPayloadOf (dcfCurate "AAPL" (some c6zero))).map (fun o => o.potentialUpsidePercent) =
      some none ∧
    (dcfPayloadOf (dcfCurate "AAPL" (some c6zero))).map (fun o => o.message) =
      some "Could not calculate potential upside." := by
  have hup := C6_amended.1 "AAPL" c6up 100 150 (by decide) rfl (by norm_num) (by norm_num)
  have hdown := C6_amended.1 "AAPL" c6down 100 80 (by decide) rfl (by norm_num) (by norm_num)
  have hzero := C6_amended.2 "AAPL" c6zero 80 (by decide) rfl (by norm_num)
  have e1 : ((150 : ℚ) - 100) / 100 * 100 = 50 := by norm_num
  have e2 : ((80 : ℚ) - 100) / 100 * 100 = -20 := by norm_num
  rw [e1] at hup
  rw [e2] at hdown
  refine ⟨?_, ?_, ?_, ?_, hzero.1, hzero.2⟩
  · rw [hup.1, if_pos (by decide)]
    norm_num [round2, show toFixed2Int 50 = 5000 from rfl]
  · rw [hup.2, if_pos (by norm_num)]
    decide
  · rw [hdown.1, if_pos (by decide)]
    norm_num [round2, show toFixed2Int (-20) = -2000 from rfl]
  · rw [hdown.2, if_neg (by norm_num)]
    decide

/-! ### C9 -/

/-- C9 counterexample: the estimates fetch throws while the price-target
sub-source has data, yet the whole call aborts to the error text — the
surviving sub-section is not curated and no summary payload exists. -/
theorem C9_counterexample :
    analystOutcome (Except.error "Request failed with status code 500")
      (Except.ok (some c9pt)) "AAPL" =
      AnalystResult.errorResult
        "Error in analyst_estimates: Request failed with status code 500" ∧
    analystSummaryOf (analystOutcome (Except.error "Request failed with status code 500")
      (Except.ok (some c9pt)) "AAPL") = none := by
  exact ⟨rfl, rfl⟩

/-- C9 (amended): graceful degradation applies only to *successfully fetched
but absent/empty* sub-sources: if exactly one of the two returns empty data,
the other sub-section is still curated with the missing one omitted, and only
when both are absent is "no data found" reported; but a thrown fetch error in
either sub-fetch aborts the whole call with an error text (no sub-section is
returned). -/
theorem C9_amended (ests : List EstRec) (pt : PTData) (sym : String) (e : String) :
    (ests ≠ [] → analystOutcome (Except.ok ests) (Except.ok none) sym =
      AnalystResult.summary
        { symbol := sym
          sourceMessage := "Summarized analyst estimates. More historical/detailed data might be available via direct API."
          priceTargetSummary := none
          recentEstimates := some ((ests.take 2).map projEst)
          recommendationInfo := some "Detailed buy/hold/sell counts not directly available in this summary. FMP has separate recommendation endpoints." }) ∧
    (analystOutcome (Except.ok []) (Except.ok (some pt)) sym =
      AnalystResult.summary
        { symbol := sym
          sourceMessage := "Summarized analyst estimates. More historical/detailed data might be available via direct API."
          priceTargetSummary := some (projPT pt)
          recentEstimates := none
          recommendationInfo := none }) ∧
    (analystOutcome (Except.ok []) (Except.ok none) sym = AnalystResult.noData) ∧
    (analystOutcome (Except.error e) (Except.ok (some pt)) sym =
      AnalystResult.errorResult ("Error in analyst_estimates: " ++ e)) ∧
    (analystOutcome (Except.ok ests) (Except.error e) sym =
      AnalystResult.errorResult ("Error in analyst_estimates: " ++ e)) := by
  refine ⟨?_, rfl, rfl, rfl, rfl⟩
  intro hne
  have hemp : ests.isEmpty = false := by
    cases ests with
    | nil => exact absurd rfl hne
    | cons a t => rfl
  simp [analystOutcome, hemp]

/-- C9 witness: a nonempty estimates list with an absent price-target
sub-source still yields the curated estimates section. -/
theorem C9_amended_witness :
    analystOutcome (Except.ok [c9est]) (Except.ok none) "AAPL" =
      AnalystResult.summary
        { symbol := "AAPL"
          sourceMessage := "Summarized analyst estimates. More historical/detailed data might be available via direct API."
          priceTargetSummary := none
          recentEstimates := some (([c9est].take 2).map projEst)
          recommendationInfo := some "Detailed buy/hold/sell counts not directly available in this summary. FMP has separate recommendation endpoints." } :=
  (C9_amended [c9est] c9pt "AAPL" "x").1 (by decide)
